import Mathlib

/-!
Verification development for the resilient websocket connection core
(`src/scripts/web-socket-connection.ts`).

The embedding models:
* the module constants;
* the subscription registry (`Set<Subscription>` of selector/listener pairs,
  modelled as a list since iteration order is what matters);
* `pollEvents` (the event polling fallback), as a fold over the registry
  threading the mutable fields it touches (`lastProcessedBlock`) together
  with an observation log (getLogs queries issued, listener invocations,
  caught per-subscription errors);
* `resubscribe` (registry replay after reconnection);
* the wrapped `provider.on` installed by `createResilientProviders`;
* the reconnection controller of `connect()` as a step function over the
  instance state, driven by the events its handlers react to (the initial
  `startConnection` call, a scheduled retry firing, a socket `close`, a
  successful open handler, an open handler whose provider initialization
  throws);
* the keep-alive watchdog as a step function over its timer state, driven
  by interval ticks, `pong` events and ping-timeout expirations.

External collaborators (the ethers provider, the raw socket) are modelled
as oracles: `getLogs` is a function that may fail (`Except`), listener
callbacks are observation events recorded in order.
-/

/-- Constant `EXPECTED_PONG_BACK = 15000` (ms), from the source. -/
def EXPECTED_PONG_BACK : Nat := 15000

/-- Constant `KEEP_ALIVE_CHECK_INTERVAL = 60 * 1000` (ms), from the source. -/
def KEEP_ALIVE_CHECK_INTERVAL : Nat := 60 * 1000

/-- Constant `MAX_RECONNECTION_ATTEMPTS = 10`, from the source. -/
def MAX_RECONNECTION_ATTEMPTS : Nat := 10

/-- Constant `RECONNECTION_DELAY = 5000` (ms), from the source. -/
def RECONNECTION_DELAY : Nat := 5000

/-- Constant `EVENT_POLL_INTERVAL = 60 * 1000` (ms), from the source. -/
def EVENT_POLL_INTERVAL : Nat := 60 * 1000

/-- An ethers `ProviderEvent`: either a string (the cases the polling loop
inspects: the literal `"block"`, a `0x`-prefixed address, or any other
string) or a non-string selector (topic filter object, ...), which the
`typeof subscription.type === "string"` test rejects. -/
inductive ProviderEvent where
  | str (s : String)
  | obj (tag : Nat)
deriving DecidableEq

/-- A registry entry: `{ type: ProviderEvent, listener: Listener }`.
Listeners are opaque; we identify them by a number and record their
invocations. -/
structure Subscription where
  type : ProviderEvent
  listener : Nat
deriving DecidableEq

/-- The test `subscription.type.startsWith("0x")` from the source, decided on the
character list of the string. -/
def startsWith0x (s : String) : Bool :=
  match s.data with
  | '0' :: 'x' :: _ => true
  | _ => false

/-- A log entry returned by `getLogs`; opaque, identified by a number. -/
abbrev Log := Int

/-- The filter object `{ address, fromBlock, toBlock }` that `pollEvents`
passes to `provider.getLogs`. -/
structure LogFilter where
  address : String
  fromBlock : Int
  toBlock : Int
deriving DecidableEq

/-- The `getLogs` oracle: answers each filter with a log list or throws. -/
abbrev GetLogs := LogFilter → Except Unit (List Log)

/-- State threaded through one `pollEvents` cycle: the watermark plus the
observations made so far (listener calls as `(listener, log)` pairs in
invocation order, `getLogs` queries in issue order, subscription types for
which an error was caught, and how many registry entries the loop has
visited). -/
structure PollState where
  lastProcessedBlock : Int
  calls : List (Nat × Log)
  queries : List LogFilter
  errored : List ProviderEvent
  processedCount : Nat
deriving DecidableEq

/-- The poll state at the start of a cycle with watermark `last`. -/
def initPollState (last : Int) : PollState :=
  { lastProcessedBlock := last, calls := [], queries := [], errored := [],
    processedCount := 0 }

/-- One iteration of the `for (const subscription of this.subscriptions)`
loop in `pollEvents`: a `"block"` subscription just sets
`lastProcessedBlock = currentBlock`; a `0x`-prefixed string subscription
queries `getLogs` over `(lastProcessedBlock, currentBlock]`, invokes its
listener once per returned log in order, then sets
`lastProcessedBlock = currentBlock`; any other selector is skipped; a
thrown `getLogs` error is caught and recorded, leaving the watermark
unchanged. -/
def pollOne (getLogs : GetLogs) (currentBlock : Int)
    (st : PollState) (sub : Subscription) : PollState :=
  let st1 := { st with processedCount := st.processedCount + 1 }
  match sub.type with
  | ProviderEvent.str s =>
      if s = "block" then
        { st1 with lastProcessedBlock := currentBlock }
      else if startsWith0x s then
        let filter : LogFilter :=
          { address := s, fromBlock := st.lastProcessedBlock + 1,
            toBlock := currentBlock }
        let st2 := { st1 with queries := st1.queries ++ [filter] }
        match getLogs filter with
        | Except.ok logs =>
            { st2 with
                calls := st2.calls ++ logs.map (fun g => (sub.listener, g)),
                lastProcessedBlock := currentBlock }
        | Except.error _ =>
            { st2 with errored := st2.errored ++ [sub.type] }
      else st1
  | ProviderEvent.obj _ => st1

/-- One `pollEvents` cycle: fold the loop body over the registry in
iteration order, starting from watermark `last`. -/
def pollEvents (getLogs : GetLogs) (currentBlock : Int)
    (subs : List Subscription) (last : Int) : PollState :=
  subs.foldl (pollOne getLogs currentBlock) (initPollState last)

/-- Field `lastProcessedBlock` as set by the constructor. -/
def initialLastProcessedBlock : Int := 0

/-- A sequence of polling cycles, each with its own `getBlockNumber` result
and `getLogs` oracle, threading the watermark; returns the watermark after
each cycle, in order. -/
def runCyclesWatermarks (subs : List Subscription) :
    List (Int × GetLogs) → Int → List Int
  | [], _ => []
  | c :: rest, last =>
      let w := (pollEvents c.2 c.1 subs last).lastProcessedBlock
      w :: runCyclesWatermarks subs rest w

example :
    (pollEvents (fun _ => Except.ok [4, 7]) 100
      [⟨ProviderEvent.str "0xabc", 1⟩] 5).calls = [(1, 4), (1, 7)] := by
  decide

example :
    (pollEvents (fun _ => Except.ok [4, 7]) 100
      [⟨ProviderEvent.str "0xabc", 1⟩] 5).queries =
      [{ address := "0xabc", fromBlock := 6, toBlock := 100 }] := by
  decide

example :
    (pollEvents (fun _ => Except.ok [])
      100 [⟨ProviderEvent.str "block", 0⟩, ⟨ProviderEvent.str "0xabc", 1⟩]
      5).queries =
      [{ address := "0xabc", fromBlock := 101, toBlock := 100 }] := by
  decide

/-- Replay `resubscribe`: iterate the registry, issuing one `provider.on` call per
entry in order; a throwing call is caught and recorded and the iteration
continues. `onFails` is the oracle saying which calls throw. Returns the
list of `on` calls issued (in order) and the list of entries whose replay
failed (in order). The registry itself is not modified. -/
def resubscribe (onFails : Subscription → Bool) :
    List Subscription → List Subscription × List Subscription
  | [] => ([], [])
  | sub :: rest =>
      let r := resubscribe onFails rest
      (sub :: r.1, if onFails sub then sub :: r.2 else r.2)

/-- The wrapped `provider.on` installed by `createResilientProviders`: it
adds the `{ type, listener }` pair to the registry (a `Set.add` of a fresh
object, hence always a new element) and forwards the same pair to the
provider's original `on`, returning that call's result. -/
def wrappedOn {α : Type} (registry : List Subscription)
    (originalOn : ProviderEvent → Nat → α)
    (eventName : ProviderEvent) (listener : Nat) : List Subscription × α :=
  (registry ++ [{ type := eventName, listener := listener }],
   originalOn eventName listener)

/-- The events the reconnection controller of `connect()` reacts to:
the initial synchronous `startConnection()` call, a scheduled retry timer
firing (running `startConnection` again), a socket `close` event, an open
handler that completes provider initialization, and an open handler whose
initialization throws (the `catch` branch). -/
inductive ConnEvent where
  | connectCall
  | retryFire
  | socketClose
  | openSuccess
  | openInitFail
deriving DecidableEq

/-- The per-instance state the reconnection controller mutates, plus
instrumentation: `resolved` records the first value the `connect()` promise
was resolved with (`some none` = resolved with `null`), `socketsCreated`
counts `new WebSocket(...)` constructions, `pendingRetries` counts retry
timers scheduled via `setTimeout(startConnection, RECONNECTION_DELAY)` and
not yet fired, `liveSockets` counts sockets created and not yet closed. -/
structure ConnState where
  terminate : Bool
  reconnectionAttempts : Nat
  isConnected : Bool
  resolved : Option (Option Unit)
  socketsCreated : Nat
  pendingRetries : Nat
  liveSockets : Nat
  subscriptions : List Subscription
  lastProcessedBlock : Int
deriving DecidableEq

/-- A JS promise resolves only once: later `resolve` calls are no-ops. -/
def resolveOnce (r : Option (Option Unit)) (v : Option Unit) :
    Option (Option Unit) :=
  match r with
  | none => some v
  | some w => some w

/-- The instance state right after the constructor. -/
def initConnState : ConnState :=
  { terminate := false, reconnectionAttempts := 0, isConnected := false,
    resolved := none, socketsCreated := 0, pendingRetries := 0,
    liveSockets := 0, subscriptions := [],
    lastProcessedBlock := initialLastProcessedBlock }

/-- The body of `startConnection`: if the attempt counter has reached
`MAX_RECONNECTION_ATTEMPTS`, set `terminate`, resolve the promise with
`null` and stop; otherwise construct a new socket. -/
def startConnection (s : ConnState) : ConnState :=
  if MAX_RECONNECTION_ATTEMPTS ≤ s.reconnectionAttempts then
    { s with terminate := true, resolved := resolveOnce s.resolved none }
  else
    { s with socketsCreated := s.socketsCreated + 1,
             liveSockets := s.liveSockets + 1 }

/-- One handler execution of the reconnection controller.
* `connectCall`/`retryFire` run `startConnection` (a firing retry timer
  first ceases to be pending);
* `socketClose` runs the `close` handler: mark disconnected, clean up the
  timers, and unless `terminate` is set increment the attempt counter and
  schedule a retry;
* `openSuccess` runs the open handler to completion: reset the attempt
  counter, mark connected, set the provider and resolve the promise with
  it;
* `openInitFail` runs the open handler into its `catch`: the handler first
  resets the attempt counter to 0 and marks connected, then the `catch`
  cleans up timers, increments the counter (to 1) and schedules a retry. -/
def connStep (s : ConnState) : ConnEvent → ConnState
  | ConnEvent.connectCall => startConnection s
  | ConnEvent.retryFire =>
      startConnection { s with pendingRetries := s.pendingRetries - 1 }
  | ConnEvent.socketClose =>
      let s1 := { s with isConnected := false,
                         liveSockets := s.liveSockets - 1 }
      if s1.terminate then s1
      else { s1 with reconnectionAttempts := s1.reconnectionAttempts + 1,
                     pendingRetries := s1.pendingRetries + 1 }
  | ConnEvent.openSuccess =>
      { s with reconnectionAttempts := 0, isConnected := true,
               resolved := resolveOnce s.resolved (some ()) }
  | ConnEvent.openInitFail =>
      { s with reconnectionAttempts := 0 + 1, isConnected := true,
               pendingRetries := s.pendingRetries + 1 }

/-- Run a list of controller events in order. -/
def applyConnEvents (s : ConnState) (evs : List ConnEvent) : ConnState :=
  evs.foldl connStep s

/-- Which events can actually occur in a given state: a retry timer can
only fire while one is pending, and close/open handlers belong to a live
socket; `connect()` is called once, so `connectCall` never re-occurs. -/
def validConnEvent (s : ConnState) : ConnEvent → Bool
  | ConnEvent.connectCall => false
  | ConnEvent.retryFire => 0 < s.pendingRetries
  | ConnEvent.socketClose => 0 < s.liveSockets
  | ConnEvent.openSuccess => 0 < s.liveSockets
  | ConnEvent.openInitFail => 0 < s.liveSockets

/-- A list of events is a valid continuation from `s`. -/
def validConnTrace (s : ConnState) : List ConnEvent → Bool
  | [] => true
  | e :: es => validConnEvent s e && validConnTrace (connStep s e) es

/-- The state right after `connect()` made its initial `startConnection()`
call (which constructs the first socket). -/
def connectStarted : ConnState := connStep initConnState ConnEvent.connectCall

/-- The run of `connect()` in which every one of the
`MAX_RECONNECTION_ATTEMPTS` sockets fails (closes without completing
initialization) and each scheduled retry fires: the initial call, then
`close`/retry pairs until the final retry hits the ceiling check. -/
def allAttemptsFailTrace : List ConnEvent :=
  ConnEvent.connectCall ::
    (List.replicate MAX_RECONNECTION_ATTEMPTS
      [ConnEvent.socketClose, ConnEvent.retryFire]).flatten

/-- The instance state after the ceiling run. -/
def terminatedState : ConnState :=
  applyConnEvents initConnState allAttemptsFailTrace

example : terminatedState.terminate = true := by decide
example : terminatedState.resolved = some none := by decide
example : terminatedState.socketsCreated = 10 := by decide
example : terminatedState.pendingRetries = 0 := by decide
example : validConnTrace connectStarted
    [ConnEvent.openInitFail, ConnEvent.socketClose] = true := by decide
example : (applyConnEvents connectStarted
    [ConnEvent.openInitFail, ConnEvent.socketClose]).pendingRetries = 2 := by
  decide

/-- The events the keep-alive watchdog reacts to: a `setInterval` tick
(ping + arm the pong timeout), a `pong` event on the socket, and the
expiration of an armed ping timeout (identified by its timer id). -/
inductive KeepAliveEvent where
  | intervalTick
  | pong
  | timeoutFire (id : Nat)
deriving DecidableEq

/-- The watchdog's timer state: `pingTimeout` is the handle stored in the
instance field (the most recently armed timeout, possibly already cleared
or fired), `armed` the ids of timeouts created and neither cleared nor
fired yet, `nextId` a fresh-id counter, `pingsSent` the number of
`ws.ping()` calls, `terminations` the number of `ws.terminate()` calls,
`wsPresent` whether `this.ws` is non-null. -/
structure KeepAliveState where
  pingTimeout : Option Nat
  armed : List Nat
  nextId : Nat
  pingsSent : Nat
  terminations : Nat
  wsPresent : Bool
deriving DecidableEq

/-- One watchdog handler execution, from `setupKeepAlive` and the `pong`
handler in `connect`:
* a tick with no socket returns at once; otherwise it sends a ping and
  arms a fresh `setTimeout` whose handle overwrites `pingTimeout`;
* `pong` clears the timeout whose handle `pingTimeout` holds, if any
  (clearing an already-fired handle is a no-op, and the field keeps the
  stale handle);
* an armed timeout firing disarms it and calls `ws.terminate()` if the
  socket is present; a cleared or already-fired id does nothing. -/
def keepAliveStep (s : KeepAliveState) : KeepAliveEvent → KeepAliveState
  | KeepAliveEvent.intervalTick =>
      if s.wsPresent then
        { s with pingsSent := s.pingsSent + 1,
                 pingTimeout := some s.nextId,
                 armed := s.nextId :: s.armed,
                 nextId := s.nextId + 1 }
      else s
  | KeepAliveEvent.pong =>
      match s.pingTimeout with
      | some id => { s with armed := s.armed.erase id }
      | none => s
  | KeepAliveEvent.timeoutFire id =>
      if id ∈ s.armed then
        { s with armed := s.armed.erase id,
                 terminations :=
                   if s.wsPresent then s.terminations + 1
                   else s.terminations }
      else s

/-- The watchdog state when `setupKeepAlive` starts, with the socket in
place. -/
def initKeepAliveState : KeepAliveState :=
  { pingTimeout := none, armed := [], nextId := 0, pingsSent := 0,
    terminations := 0, wsPresent := true }

example :
    ((([KeepAliveEvent.intervalTick, KeepAliveEvent.pong,
        KeepAliveEvent.timeoutFire 0]).foldl keepAliveStep
      initKeepAliveState).terminations) = 0 := by decide

example :
    ((([KeepAliveEvent.intervalTick,
        KeepAliveEvent.timeoutFire 0]).foldl keepAliveStep
      initKeepAliveState).terminations) = 1 := by decide

/-! ### Helper lemmas -/

/-- Every loop iteration of `pollEvents` visits exactly one subscription,
whatever its selector and whether or not its query throws. -/
theorem pollOne_processedCount (g : GetLogs) (c : Int) (st : PollState)
    (sub : Subscription) :
    (pollOne g c st sub).processedCount = st.processedCount + 1 := by
  unfold pollOne
  cases sub.type with
  | str s =>
      by_cases hb : s = "block"
      · simp [hb]
      · by_cases h0 : startsWith0x s
        · simp only [hb, h0, if_false, if_true]
          cases g { address := s, fromBlock := st.lastProcessedBlock + 1,
                    toBlock := c } <;> simp
        · simp [hb, h0]
  | obj t => simp

/-- A loop iteration either leaves the watermark alone or sets it to the
polled `currentBlock`. -/
theorem pollOne_lastProcessedBlock (g : GetLogs) (c : Int) (st : PollState)
    (sub : Subscription) :
    (pollOne g c st sub).lastProcessedBlock = st.lastProcessedBlock ∨
    (pollOne g c st sub).lastProcessedBlock = c := by
  unfold pollOne
  cases sub.type with
  | str s =>
      by_cases hb : s = "block"
      · right; simp [hb]
      · by_cases h0 : startsWith0x s
        · simp only [hb, h0, if_false, if_true]
          cases g { address := s, fromBlock := st.lastProcessedBlock + 1,
                    toBlock := c } with
          | ok logs => right; simp
          | error e => left; simp
        · left; simp [hb, h0]
  | obj t => left; simp

/-- Folding the loop body over any registry tail adds its length to the
visited count. -/
theorem foldl_pollOne_processedCount (g : GetLogs) (c : Int)
    (subs : List Subscription) :
    ∀ st : PollState,
      (subs.foldl (pollOne g c) st).processedCount =
        st.processedCount + subs.length := by
  induction subs with
  | nil => intro st; simp
  | cons sub rest ih =>
      intro st
      rw [List.foldl_cons, ih, pollOne_processedCount, List.length_cons]
      omega

/-- A whole cycle visits every registry entry exactly once. -/
theorem pollEvents_processedCount (g : GetLogs) (c : Int)
    (subs : List Subscription) (last : Int) :
    (pollEvents g c subs last).processedCount = subs.length := by
  unfold pollEvents
  rw [foldl_pollOne_processedCount]
  simp [initPollState]

/-- Folding the loop body leaves the watermark at its initial value or at
the polled `currentBlock`. -/
theorem foldl_pollOne_lastProcessedBlock (g : GetLogs) (c : Int)
    (subs : List Subscription) :
    ∀ st : PollState,
      (subs.foldl (pollOne g c) st).lastProcessedBlock =
        st.lastProcessedBlock ∨
      (subs.foldl (pollOne g c) st).lastProcessedBlock = c := by
  induction subs with
  | nil => intro st; left; rfl
  | cons sub rest ih =>
      intro st
      rw [List.foldl_cons]
      rcases ih (pollOne g c st sub) with h | h
      · rcases pollOne_lastProcessedBlock g c st sub with h2 | h2
        · left; rw [h, h2]
        · right; rw [h, h2]
      · right; exact h

/-- After one cycle the watermark is its previous value or the polled
`currentBlock`. -/
theorem pollEvents_lastProcessedBlock (g : GetLogs) (c : Int)
    (subs : List Subscription) (last : Int) :
    (pollEvents g c subs last).lastProcessedBlock = last ∨
    (pollEvents g c subs last).lastProcessedBlock = c := by
  unfold pollEvents
  rcases foldl_pollOne_lastProcessedBlock g c subs (initPollState last)
    with h | h
  · left; exact h
  · right; exact h

/-- Weakening the head of a `≤`-chain. -/
theorem chain_le_of_le {a b : Int} {l : List Int}
    (hba : b ≤ a) (h : List.Chain (· ≤ ·) a l) :
    List.Chain (· ≤ ·) b l := by
  cases h with
  | nil => exact List.Chain.nil
  | cons hab h2 => exact List.Chain.cons (le_trans hba hab) h2

/-- If the polled block numbers are non-decreasing (each at least the
previous, the first at least the starting watermark), the per-cycle
watermarks are non-decreasing. -/
theorem runCyclesWatermarks_chain (subs : List Subscription) :
    ∀ (cycles : List (Int × GetLogs)) (last : Int),
      List.Chain (· ≤ ·) last (cycles.map Prod.fst) →
      List.Chain (· ≤ ·) last (runCyclesWatermarks subs cycles last) := by
  intro cycles
  induction cycles with
  | nil => intro last _; exact List.Chain.nil
  | cons cyc rest ih =>
      intro last h
      rw [List.map_cons, List.chain_cons] at h
      obtain ⟨hlc, hrest⟩ := h
      simp only [runCyclesWatermarks]
      rw [List.chain_cons]
      rcases pollEvents_lastProcessedBlock cyc.2 cyc.1 subs last with hw | hw
      · rw [hw]
        exact ⟨le_refl last, ih last (chain_le_of_le hlc hrest)⟩
      · rw [hw]
        exact ⟨hlc, ih cyc.1 hrest⟩

/-- Replay issues the `on` calls in registry order, one per entry. -/
theorem resubscribe_calls (onFails : Subscription → Bool)
    (subs : List Subscription) : (resubscribe onFails subs).1 = subs := by
  induction subs with
  | nil => rfl
  | cons sub rest ih => simp only [resubscribe]; rw [ih]

/-- Replay records exactly the entries whose `on` call threw, in order. -/
theorem resubscribe_errors (onFails : Subscription → Bool)
    (subs : List Subscription) :
    (resubscribe onFails subs).2 = subs.filter onFails := by
  induction subs with
  | nil => rfl
  | cons sub rest ih =>
      simp only [resubscribe, List.filter_cons]
      by_cases h : onFails sub <;> simp [h, ih]

/-- No reconnection-controller handler touches the registry. -/
theorem connStep_subscriptions (s : ConnState) (e : ConnEvent) :
    (connStep s e).subscriptions = s.subscriptions := by
  cases e <;> simp only [connStep, startConnection] <;>
    first
      | rfl
      | (split <;> rfl)

/-- No reconnection-controller handler touches the watermark. -/
theorem connStep_lastProcessedBlock (s : ConnState) (e : ConnEvent) :
    (connStep s e).lastProcessedBlock = s.lastProcessedBlock := by
  cases e <;> simp only [connStep, startConnection] <;>
    first
      | rfl
      | (split <;> rfl)

/-- Once `terminate` is set with no retry pending and the attempt counter
at the ceiling, close events and (hypothetical) retry firings change
nothing observable: no socket is created, no retry is scheduled, the state
stays terminated. -/
theorem terminated_quiescent :
    ∀ evs : List ConnEvent,
      (∀ e ∈ evs, e = ConnEvent.socketClose ∨ e = ConnEvent.retryFire) →
      ∀ s : ConnState, s.terminate = true → s.pendingRetries = 0 →
        MAX_RECONNECTION_ATTEMPTS ≤ s.reconnectionAttempts →
        (applyConnEvents s evs).socketsCreated = s.socketsCreated ∧
        (applyConnEvents s evs).pendingRetries = 0 ∧
        (applyConnEvents s evs).terminate = true := by
  intro evs
  induction evs with
  | nil => intro _ s hT hP _; exact ⟨rfl, hP, hT⟩
  | cons e rest ih =>
      intro hevs s hT hP hA
      have hrest : ∀ e' ∈ rest,
          e' = ConnEvent.socketClose ∨ e' = ConnEvent.retryFire :=
        fun e' h' => hevs e' (List.mem_cons_of_mem e h')
      rcases hevs e (List.mem_cons_self e rest) with he | he <;> subst he
      · have hstep : connStep s ConnEvent.socketClose =
            { s with isConnected := false,
                     liveSockets := s.liveSockets - 1 } := by
          simp [connStep, hT]
        have h2 := ih hrest (connStep s ConnEvent.socketClose)
          (by rw [hstep]; exact hT) (by rw [hstep]; exact hP)
          (by rw [hstep]; exact hA)
        refine ⟨?_, h2.2.1, h2.2.2⟩
        rw [show applyConnEvents s (ConnEvent.socketClose :: rest) =
              applyConnEvents (connStep s ConnEvent.socketClose) rest from rfl,
            h2.1, hstep]
      · have hstep : connStep s ConnEvent.retryFire =
            { s with pendingRetries := s.pendingRetries - 1,
                     terminate := true,
                     resolved := resolveOnce s.resolved none } := by
          simp [connStep, startConnection, hA]
        have h2 := ih hrest (connStep s ConnEvent.retryFire)
          (by rw [hstep]) (by rw [hstep]; simp [hP]) (by rw [hstep]; exact hA)
        refine ⟨?_, h2.2.1, h2.2.2⟩
        rw [show applyConnEvents s (ConnEvent.retryFire :: rest) =
              applyConnEvents (connStep s ConnEvent.retryFire) rest from rfl,
            h2.1, hstep]

/-- One controller step keeps `pendingRetries + liveSockets ≤ 1`, as long
as the event can actually occur in the current state and is not the open
handler's `catch` branch. -/
theorem connStep_retry_bound (s : ConnState) (e : ConnEvent)
    (hv : validConnEvent s e = true) (hne : e ≠ ConnEvent.openInitFail)
    (h : s.pendingRetries + s.liveSockets ≤ 1) :
    (connStep s e).pendingRetries + (connStep s e).liveSockets ≤ 1 := by
  cases e with
  | connectCall => simp [validConnEvent] at hv
  | retryFire =>
      simp only [validConnEvent, decide_eq_true_eq] at hv
      simp only [connStep, startConnection]
      split
      · simp only []
        omega
      · simp only []
        omega
  | socketClose =>
      simp only [validConnEvent, decide_eq_true_eq] at hv
      simp only [connStep]
      split
      · simp only []
        omega
      · simp only []
        omega
  | openSuccess => simpa [connStep] using h
  | openInitFail => exact absurd rfl hne

/-- Along any realizable trace without an open-handler initialization
failure, `pendingRetries + liveSockets ≤ 1` is invariant. -/
theorem validTrace_retry_bound :
    ∀ (evs : List ConnEvent) (s : ConnState),
      validConnTrace s evs = true → ConnEvent.openInitFail ∉ evs →
      s.pendingRetries + s.liveSockets ≤ 1 →
      (applyConnEvents s evs).pendingRetries +
        (applyConnEvents s evs).liveSockets ≤ 1 := by
  intro evs
  induction evs with
  | nil => intro s _ _ h; exact h
  | cons e rest ih =>
      intro s hv hnf h
      rw [validConnTrace, Bool.and_eq_true] at hv
      have hne : e ≠ ConnEvent.openInitFail :=
        fun hc => hnf (hc ▸ List.mem_cons_self e rest)
      exact ih (connStep s e) hv.2
        (fun hm => hnf (List.mem_cons_of_mem e hm))
        (connStep_retry_bound s e hv.1 hne h)

/-! ### Claim C1 -/

/-- C1: in the run of `connect()` where all `MAX_RECONNECTION_ATTEMPTS`
(10) consecutive connection attempts fail (each socket closes unopened and
each scheduled retry fires), the final ceiling check sets `terminate`, the
`connect()` promise resolves with `null`, exactly 10 sockets were created,
and afterwards — whatever later close events or stray retry firings occur —
no further socket is ever created, no retry is pending, and the instance
stays terminated. -/
theorem connect_ceiling_terminates :
    terminatedState.terminate = true ∧
    terminatedState.resolved = some none ∧
    terminatedState.socketsCreated = MAX_RECONNECTION_ATTEMPTS ∧
    ∀ evs : List ConnEvent,
      (∀ e ∈ evs, e = ConnEvent.socketClose ∨ e = ConnEvent.retryFire) →
      (applyConnEvents terminatedState evs).socketsCreated =
        MAX_RECONNECTION_ATTEMPTS ∧
      (applyConnEvents terminatedState evs).pendingRetries = 0 ∧
      (applyConnEvents terminatedState evs).terminate = true := by
  refine ⟨by decide, by decide, by decide, ?_⟩
  intro evs hevs
  have h := terminated_quiescent evs hevs terminatedState
    (by decide) (by decide) (by decide)
  exact ⟨h.1.trans (by decide), h.2.1, h.2.2⟩

/-- Closed instance of `connect_ceiling_terminates`: one more close event
after termination creates no socket. -/
theorem connect_ceiling_terminates_witness :
    (applyConnEvents terminatedState [ConnEvent.socketClose]).socketsCreated =
      MAX_RECONNECTION_ATTEMPTS :=
  (connect_ceiling_terminates.2.2.2 [ConnEvent.socketClose] (by decide)).1

/-! ### Claim C9 -/

/-- C9 counterexample: a failure inside the post-open initialization
sequence (`openInitFail`, which schedules a retry from the `catch`) followed
by the same socket's close event (which schedules another, `terminate`
being unset) is a realizable trace ending with TWO pending retry timers. -/
theorem double_retry_schedule_cex :
    validConnTrace connectStarted
      [ConnEvent.openInitFail, ConnEvent.socketClose] = true ∧
    (applyConnEvents connectStarted
      [ConnEvent.openInitFail, ConnEvent.socketClose]).pendingRetries = 2 := by
  decide

/-- C9 (amended): in any realizable run of a single `connect()` in which
the post-open initialization sequence never fails — so retries are
scheduled only by close events, which fire at most once per socket — at
most one retry timer is pending at any point. (With an initialization
failure the bound is violated; see the counterexample.) -/
theorem single_retry_pending_without_init_failure
    (evs : List ConnEvent)
    (hv : validConnTrace connectStarted evs = true)
    (hnf : ConnEvent.openInitFail ∉ evs) :
    (applyConnEvents connectStarted evs).pendingRetries ≤ 1 := by
  have h := validTrace_retry_bound evs connectStarted hv hnf (by decide)
  omega

/-- Closed instance of `single_retry_pending_without_init_failure` on the
trace close-then-retry. -/
theorem single_retry_pending_without_init_failure_witness :
    (applyConnEvents connectStarted
      [ConnEvent.socketClose, ConnEvent.retryFire]).pendingRetries ≤ 1 :=
  single_retry_pending_without_init_failure
    [ConnEvent.socketClose, ConnEvent.retryFire] (by decide) (by decide)

/-! ### Claim C5 -/

/-- C5: the probe interval is 60 s and the pong timeout 15 s; every
interval tick (socket present) sends one ping and arms a fresh timeout;
if a pong arrives while that timeout is the one the `pingTimeout` field
holds and before it fires, the timeout is cancelled and its firing
terminates nothing; if an armed timeout fires first, the socket is
terminated exactly once — firing the same expired timeout again terminates
nothing further. -/
theorem keepAlive_ping_pong_terminate (s : KeepAliveState)
    (hws : s.wsPresent = true) (hnd : s.armed.Nodup) :
    KEEP_ALIVE_CHECK_INTERVAL = 60000 ∧
    EXPECTED_PONG_BACK = 15000 ∧
    (keepAliveStep s KeepAliveEvent.intervalTick).pingsSent =
      s.pingsSent + 1 ∧
    (keepAliveStep s KeepAliveEvent.intervalTick).pingTimeout =
      some s.nextId ∧
    s.nextId ∈ (keepAliveStep s KeepAliveEvent.intervalTick).armed ∧
    (∀ id, s.pingTimeout = some id →
      (keepAliveStep (keepAliveStep s KeepAliveEvent.pong)
        (KeepAliveEvent.timeoutFire id)).terminations = s.terminations) ∧
    (∀ id, id ∈ s.armed →
      (keepAliveStep s (KeepAliveEvent.timeoutFire id)).terminations =
        s.terminations + 1 ∧
      (keepAliveStep (keepAliveStep s (KeepAliveEvent.timeoutFire id))
        (KeepAliveEvent.timeoutFire id)).terminations =
        s.terminations + 1) := by
  refine ⟨rfl, rfl, ?_, ?_, ?_, ?_, ?_⟩
  · simp [keepAliveStep, hws]
  · simp [keepAliveStep, hws]
  · simp [keepAliveStep, hws]
  · intro id hid
    have hmem : id ∉ s.armed.erase id :=
      fun hm => absurd rfl (hnd.mem_erase_iff.mp hm).1
    simp [keepAliveStep, hid, hmem]
  · intro id hid
    have hmem : id ∉ s.armed.erase id :=
      fun hm => absurd rfl (hnd.mem_erase_iff.mp hm).1
    constructor
    · simp [keepAliveStep, hid, hws]
    · simp [keepAliveStep, hid, hws, hmem]

/-- Keep-alive state with one armed ping timeout (id 0), used to
instantiate `keepAlive_ping_pong_terminate`. -/
def keepAliveArmedState : KeepAliveState :=
  { pingTimeout := some 0, armed := [0], nextId := 1, pingsSent := 1,
    terminations := 0, wsPresent := true }

/-- Closed instance of `keepAlive_ping_pong_terminate`: pong then timeout
expiry on the armed state terminates nothing. -/
theorem keepAlive_ping_pong_terminate_witness :
    (keepAliveStep (keepAliveStep keepAliveArmedState KeepAliveEvent.pong)
      (KeepAliveEvent.timeoutFire 0)).terminations =
      keepAliveArmedState.terminations :=
  (keepAlive_ping_pong_terminate keepAliveArmedState rfl
    (by decide)).2.2.2.2.2.1 0 rfl

/-! ### Claim C2 -/

/-- C2 counterexample: with a `"block"` subscription iterated before an
address subscription whose `getLogs` query throws, the cycle still
advances `lastProcessedBlock` from 0 to the polled block 100, although the
erroring address subscription is registered in that very cycle — refuting
"advanced only after all subscriptions processed without error" and "never
advances to a block for which the query errored for a registered address
subscription". -/
theorem watermark_advances_despite_error_cex :
    (pollEvents (fun _ => Except.error ()) 100
      [{ type := ProviderEvent.str "block", listener := 0 },
       { type := ProviderEvent.str "0xabc", listener := 1 }]
      initialLastProcessedBlock).lastProcessedBlock = 100 ∧
    ProviderEvent.str "0xabc" ∈
      (pollEvents (fun _ => Except.error ()) 100
        [{ type := ProviderEvent.str "block", listener := 0 },
         { type := ProviderEvent.str "0xabc", listener := 1 }]
        initialLastProcessedBlock).errored := by
  decide

/-- C2 (amended): `lastProcessedBlock` is advanced to `currentBlock`
separately after each successfully processed subscription — immediately
for a `"block"` subscription, and after log delivery for an address
subscription whose query succeeded. A subscription whose `getLogs` query
errors does not itself advance the watermark (and the error is recorded),
but other subscriptions of the same cycle still advance it, so the
watermark can reach a block for which some registered address
subscription's query errored. -/
theorem watermark_per_subscription_advance (g : GetLogs) (c : Int)
    (st : PollState) (a : String) (l : Nat)
    (h0 : startsWith0x a = true) (hb : a ≠ "block") :
    (pollOne g c st
      { type := ProviderEvent.str "block", listener := l }).lastProcessedBlock
      = c ∧
    (∀ logs,
      g { address := a, fromBlock := st.lastProcessedBlock + 1,
          toBlock := c } = Except.ok logs →
      (pollOne g c st
        { type := ProviderEvent.str a, listener := l }).lastProcessedBlock
        = c) ∧
    (g { address := a, fromBlock := st.lastProcessedBlock + 1,
         toBlock := c } = Except.error () →
      (pollOne g c st
        { type := ProviderEvent.str a, listener := l }).lastProcessedBlock
        = st.lastProcessedBlock ∧
      ProviderEvent.str a ∈
        (pollOne g c st
          { type := ProviderEvent.str a, listener := l }).errored) := by
  refine ⟨by simp [pollOne], ?_, ?_⟩
  · intro logs hok
    simp [pollOne, hb, h0, hok]
  · intro herr
    constructor <;> simp [pollOne, hb, h0, herr]

/-- Closed instance of `watermark_per_subscription_advance`: a successful
address query advances the watermark to the polled block. -/
theorem watermark_per_subscription_advance_witness :
    (pollOne (fun _ => Except.ok [3]) 9 (initPollState 2)
      { type := ProviderEvent.str "0xab", listener := 5 }).lastProcessedBlock
      = 9 :=
  (watermark_per_subscription_advance (fun _ => Except.ok [3]) 9
    (initPollState 2) "0xab" 5 (by decide) (by decide)).2.1 [3] rfl

/-! ### Claim C3 -/

/-- C3 counterexample: watermark 5 at cycle start, polled block 100, a
`"block"` subscription iterated before the address subscription. The
address subscription's only `getLogs` query uses `fromBlock = 101`, not
the cycle-start watermark plus one (6) — the claim's range
`(lastProcessedBlock, currentBlock]` as determined at the start of the
cycle is not what the code queries. -/
theorem address_query_range_cex :
    (pollEvents (fun _ => Except.ok []) 100
      [{ type := ProviderEvent.str "block", listener := 0 },
       { type := ProviderEvent.str "0xabc", listener := 1 }] 5).queries =
      [{ address := "0xabc", fromBlock := 101, toBlock := 100 }] ∧
    (101 : Int) ≠ 5 + 1 := by
  decide

/-- C3 (amended): an address subscription's query uses the half-open range
`(w, currentBlock]` where `w` is the watermark as it stands when that
subscription is reached — possibly already advanced to `currentBlock` by an
earlier subscription of the same cycle — i.e. `fromBlock = w + 1`,
`toBlock = currentBlock`; and when the query succeeds, each returned log
causes exactly one invocation of that subscription's listener, appended in
the order the query returned the logs. -/
theorem address_query_range_and_delivery (g : GetLogs) (c : Int)
    (st : PollState) (a : String) (l : Nat) (logs : List Log)
    (h0 : startsWith0x a = true) (hb : a ≠ "block")
    (hok : g { address := a, fromBlock := st.lastProcessedBlock + 1,
               toBlock := c } = Except.ok logs) :
    (pollOne g c st { type := ProviderEvent.str a, listener := l }).queries =
      st.queries ++
        [{ address := a, fromBlock := st.lastProcessedBlock + 1,
           toBlock := c }] ∧
    (pollOne g c st { type := ProviderEvent.str a, listener := l }).calls =
      st.calls ++ logs.map (fun lg => (l, lg)) := by
  constructor <;> simp [pollOne, hb, h0, hok]

/-- Closed instance of `address_query_range_and_delivery`: two returned
logs produce the two listener invocations in order. -/
theorem address_query_range_and_delivery_witness :
    (pollOne (fun _ => Except.ok [4, 7]) 100 (initPollState 5)
      { type := ProviderEvent.str "0xabc", listener := 1 }).calls =
      [(1, 4), (1, 7)] := by
  have h := (address_query_range_and_delivery (fun _ => Except.ok [4, 7])
    100 (initPollState 5) "0xabc" 1 [4, 7] (by decide) (by decide) rfl).2
  simpa [initPollState] using h

/-! ### Claim C4 -/

/-- C4 counterexample: with a `"block"` subscription, two cycles whose
`getBlockNumber` results are 100 then 50 drive the watermark from 0 to
100 and then DOWN to 50 — `lastProcessedBlock` is not monotonically
non-decreasing under arbitrary integer `getBlockNumber` results. -/
theorem watermark_monotonicity_cex :
    runCyclesWatermarks [{ type := ProviderEvent.str "block", listener := 0 }]
      [((100 : Int), fun _ => Except.ok []),
       ((50 : Int), fun _ => Except.ok [])]
      initialLastProcessedBlock = [100, 50] ∧
    ¬ ((100 : Int) ≤ 50) := by
  decide

/-- C4 (amended): no reconnection-controller handler ever writes
`lastProcessedBlock` — only the polling fallback does — and across any
sequence of polling cycles whose `getBlockNumber` results are
non-decreasing and at least the starting watermark, the watermark sequence
is non-decreasing. (An RPC result below the current watermark lowers it;
see the counterexample.) -/
theorem watermark_monotone_of_monotone_blocks
    (subs : List Subscription) (cycles : List (Int × GetLogs)) (last : Int)
    (s : ConnState) (e : ConnEvent)
    (hmono : List.Chain (· ≤ ·) last (cycles.map Prod.fst)) :
    List.Chain (· ≤ ·) last (runCyclesWatermarks subs cycles last) ∧
    (connStep s e).lastProcessedBlock = s.lastProcessedBlock :=
  ⟨runCyclesWatermarks_chain subs cycles last hmono,
   connStep_lastProcessedBlock s e⟩

/-- Closed instance of `watermark_monotone_of_monotone_blocks` on blocks
3 then 7. -/
theorem watermark_monotone_of_monotone_blocks_witness :
    List.Chain (· ≤ ·) 0
      (runCyclesWatermarks
        [{ type := ProviderEvent.str "block", listener := 0 }]
        [((3 : Int), fun _ => Except.ok []),
         ((7 : Int), fun _ => Except.ok [])] 0) :=
  (watermark_monotone_of_monotone_blocks
    [{ type := ProviderEvent.str "block", listener := 0 }]
    [((3 : Int), fun _ => Except.ok []),
     ((7 : Int), fun _ => Except.ok [])] 0
    initConnState ConnEvent.socketClose
    (List.Chain.cons (by norm_num)
      (List.Chain.cons (by norm_num) List.Chain.nil))).1

/-! ### Claim C10 -/

/-- C10 counterexample: `lastProcessedBlock` starts at 0, but in the very
first polling cycle an address subscription iterated after a `"block"`
subscription queries `fromBlock = 8` (the polled block 7 plus one), not
`fromBlock = 1`; with a historical log sitting at block 1 (returned by the
oracle exactly when the queried range covers block 1), the listener is
never invoked. -/
theorem first_cycle_historical_cex :
    (pollEvents
      (fun f => Except.ok
        (if f.fromBlock ≤ 1 ∧ (1 : Int) ≤ f.toBlock then [1] else []))
      7
      [{ type := ProviderEvent.str "block", listener := 0 },
       { type := ProviderEvent.str "0xabc", listener := 1 }]
      initialLastProcessedBlock).queries =
      [{ address := "0xabc", fromBlock := 8, toBlock := 7 }] ∧
    (pollEvents
      (fun f => Except.ok
        (if f.fromBlock ≤ 1 ∧ (1 : Int) ≤ f.toBlock then [1] else []))
      7
      [{ type := ProviderEvent.str "block", listener := 0 },
       { type := ProviderEvent.str "0xabc", listener := 1 }]
      initialLastProcessedBlock).calls = [] := by
  decide

/-- C10 (amended): `lastProcessedBlock` is initialized to 0 by the
constructor, so an address subscription reached in the first polling cycle
while the watermark is still 0 — i.e. before any `"block"` or successful
address subscription of that cycle advanced it — queries
`fromBlock = 1 .. currentBlock` and its listener is invoked for every log
the query returns over that whole historical range. -/
theorem first_cycle_address_from_one (g : GetLogs) (c : Int) (a : String)
    (l : Nat) (logs : List Log)
    (h0 : startsWith0x a = true) (hb : a ≠ "block")
    (hok : g { address := a, fromBlock := 1, toBlock := c } =
      Except.ok logs) :
    (pollOne g c (initPollState initialLastProcessedBlock)
      { type := ProviderEvent.str a, listener := l }).queries =
      [{ address := a, fromBlock := 1, toBlock := c }] ∧
    (pollOne g c (initPollState initialLastProcessedBlock)
      { type := ProviderEvent.str a, listener := l }).calls =
      logs.map (fun lg => (l, lg)) := by
  constructor <;>
    simp [pollOne, hb, h0, initPollState, initialLastProcessedBlock, hok]

/-- Closed instance of `first_cycle_address_from_one`: the three
historical logs 1, 2, 3 are all delivered in the first cycle. -/
theorem first_cycle_address_from_one_witness :
    (pollOne (fun _ => Except.ok [1, 2, 3]) 7
      (initPollState initialLastProcessedBlock)
      { type := ProviderEvent.str "0xabc", listener := 1 }).calls =
      [(1, 1), (1, 2), (1, 3)] :=
  ((first_cycle_address_from_one (fun _ => Except.ok [1, 2, 3]) 7 "0xabc" 1
    [1, 2, 3] (by decide) (by decide) rfl).2).trans (by decide)

/-! ### Claim C6 -/

/-- C6: a polling cycle visits every registry entry whatever errors
individual `getLogs` queries raise (every entry is processed exactly once);
an erroring address subscription has its error recorded and still counts
as visited; and replay after reconnection issues its `on` call for every
entry, recording exactly the entries whose call threw — one subscription's
failure never aborts the iteration over the rest, in either pass. -/
theorem per_subscription_error_isolation (g : GetLogs) (c : Int)
    (subs : List Subscription) (last : Int)
    (onFails : Subscription → Bool) :
    (pollEvents g c subs last).processedCount = subs.length ∧
    (resubscribe onFails subs).1 = subs ∧
    (resubscribe onFails subs).2 = subs.filter onFails ∧
    (∀ (st : PollState) (a : String) (l : Nat),
      startsWith0x a = true → a ≠ "block" →
      g { address := a, fromBlock := st.lastProcessedBlock + 1,
          toBlock := c } = Except.error () →
      ProviderEvent.str a ∈
        (pollOne g c st { type := ProviderEvent.str a, listener := l }).errored
      ∧ (pollOne g c st
          { type := ProviderEvent.str a, listener := l }).processedCount =
          st.processedCount + 1) := by
  refine ⟨pollEvents_processedCount g c subs last,
    resubscribe_calls onFails subs, resubscribe_errors onFails subs, ?_⟩
  intro st a l h0 hb herr
  refine ⟨?_, pollOne_processedCount g c st _⟩
  simp [pollOne, hb, h0, herr]

/-- Closed instance of `per_subscription_error_isolation`: an erroring
address subscription is recorded and still visited. -/
theorem per_subscription_error_isolation_witness :
    ProviderEvent.str "0xff" ∈
      (pollOne (fun _ => Except.error ()) 4 (initPollState 0)
        { type := ProviderEvent.str "0xff", listener := 2 }).errored :=
  ((per_subscription_error_isolation (fun _ => Except.error ()) 4 [] 0
    (fun _ => false)).2.2.2 (initPollState 0) "0xff" 2
    (by decide) (by decide) rfl).1

/-! ### Claim C7 -/

/-- C7: replay issues exactly one `on` call per registry entry against the
fresh client, in registry order (in particular a registry holding a block
subscription and one address subscription yields exactly two calls), and
no reconnection-controller handler — socket close, retry, reopen — ever
changes the registry's contents. -/
theorem resubscribe_one_call_per_entry (onFails : Subscription → Bool)
    (subs : List Subscription) (s : ConnState) (e : ConnEvent) :
    (resubscribe onFails subs).1 = subs ∧
    (resubscribe onFails
      [{ type := ProviderEvent.str "block", listener := 0 },
       { type := ProviderEvent.str "0xabc", listener := 1 }]).1.length = 2 ∧
    (connStep s e).subscriptions = s.subscriptions := by
  refine ⟨resubscribe_calls onFails subs, ?_, connStep_subscriptions s e⟩
  rw [resubscribe_calls]
  rfl

/-! ### Claim C8 -/

/-- C8: the wrapped `on` installed by `createResilientProviders` adds the
`(selector, callback)` pair to the subscription registry (keeping all
existing entries) and forwards the same pair to the underlying client's
native `on`, returning that call's result. -/
theorem wrappedOn_registers_and_forwards {α : Type}
    (registry : List Subscription) (originalOn : ProviderEvent → Nat → α)
    (eventName : ProviderEvent) (listener : Nat) :
    ({ type := eventName, listener := listener } : Subscription) ∈
      (wrappedOn registry originalOn eventName listener).1 ∧
    (wrappedOn registry originalOn eventName listener).1 =
      registry ++ [{ type := eventName, listener := listener }] ∧
    (wrappedOn registry originalOn eventName listener).2 =
      originalOn eventName listener := by
  refine ⟨?_, rfl, rfl⟩
  simp [wrappedOn]
